import Mathlib

/-!
# Verification of the VibeCheck task manager core (src/app.py)

This file is a shallow embedding of the task/subtask data model and its
persistence and mutation contract from `src/app.py` (a Streamlit app built
on pandas DataFrames), together with theorems settling the frozen claims
about it.

Modelling conventions, fixed once here:

* The in-memory DataFrame is a `List Row` in row order; `st.session_state`
  and the persisted CSV file are carried in an explicit `AppState`.
* A scalar DataFrame cell is a `Cell`: pandas `read_csv` performs
  column-level type inference (a column all of whose non-missing values are
  boolean literals becomes a boolean column, likewise integer and float
  literals; empty cells and NA sentinels such as "NaN"/"None" become
  missing values; any other column stays a column of strings). This is
  embedded by `readCol`.
* `Series.astype(bool)` on scalar data applies Python truthiness elementwise
  and does not raise (non-empty strings, non-zero numbers and NaN are
  truthy), so the string-form fallback on line 40 of `app.py` is dead code;
  `Cell.truthy` embeds this.
* Missing due dates: `pd.to_datetime(col, errors="coerce").dt.date` maps an
  unparseable or empty cell to `NaT`, and boxes `NaT` (not `NaN`) for
  missing entries. `pd.NaT` is an instance of `datetime.date` (its type
  subclasses `datetime`), and `NaT + timedelta(...) = NaT`, and
  `pd.NaT.isoformat() = "NaT"` (which `to_datetime` coerces back to `NaT`).
  The `Due` type embeds the three states a Due Date cell can be in.
* The `Subtasks` cell crosses the file as a JSON string; `json.dumps` /
  `json.loads` round-trip the lists of flat dicts produced by the app, so
  the cell is embedded structurally as `SubsCell` (carrying the parse
  result for well-formed text) rather than as raw JSON text.
* `uuid.uuid4().hex` draws are embedded by an explicit supply
  `sup : Nat -> String` and a draw counter, threaded in program order.
* `df.loc[mask, col] = value`: a scalar `value` is broadcast to every
  masked cell (`save_edits`, `snooze_task`, `set_done_from_checkbox`). A
  list-valued `value` is NOT written into the cell: pandas aligns a
  list-like right-hand side elementwise with the masked rows, raising
  `ValueError` when the lengths differ and otherwise writing the bare j-th
  element into the j-th masked cell - for this app's one-row masks, the
  bare subtask dict instead of the list. The subtask cell writes of
  `delete_subtask` and `add_subtask` are modelled with these semantics by
  `deleteSubtaskCall` and `addSubtaskCall`, whose `CallbackResult` carries
  the possibly-mangled frame and the propagated exception.
  `set_subtask_done`'s matched branch and the simplified `addSubtask`
  model only the intended clean write; every claim that mentions them
  reaches only their early-return paths, which are exact.
-/

namespace VibeCheck

/-- One subtask dict `{'id': ..., 'text': ..., 'done': ...}` as held in the
normalized in-memory `Subtasks` cell. -/
structure Sub where
  id : String
  text : String
  done : Bool
deriving DecidableEq

/-- A scalar cell of the in-memory DataFrame after `read_csv` type
inference: missing (NaN), boolean, integer, float (kept as its literal
text), or string. -/
inductive Cell
  | na
  | boolC (b : Bool)
  | intC (n : Int)
  | floatC (lit : String)
  | strC (s : String)
deriving DecidableEq

/-- The Due Date cell of the in-memory frame. `load_df` produces `d day`
(a `datetime.date`, days counted from an arbitrary epoch) or `naT`
(pandas `NaT` for empty/unparseable cells); `save_edits` writes the empty
string when clearing a date. -/
inductive Due
  | d (day : Int)
  | naT
  | emptyStr
deriving DecidableEq

/-- One normalized task row: columns id, Task, Subtasks, Due Date, Done. -/
structure Row where
  id : Cell
  task : Cell
  subtasks : List Sub
  due : Due
  done : Bool
deriving DecidableEq

/-- One element of a parsed `Subtasks` JSON list: either a JSON object
(with the projections `load_df` reads: the "id" value as a string when
present, the "text" value as a string when present, and the truth value of
the "done" value when that key is present), or a non-dict scalar whose
`str()` form is kept. -/
inductive JEntry
  | dict (idVal : Option String) (textVal : Option String) (doneVal : Option Bool)
  | scalar (s : String)
deriving DecidableEq

/-- The raw `Subtasks` cell of one record: a missing value (empty cell),
whitespace-only text, non-blank text on which `json.loads` fails or yields
a non-list, or non-blank text parsing to a JSON list. (A `Subtasks` column
whose every cell is a boolean or numeric literal would be re-typed by
column inference and fail the `isinstance(subs_cell, str)` test like a
missing value; such cells are outside this model, and no claim depends on
them - files written by `save_df` always hold JSON text here.) -/
inductive SubsCell
  | na
  | blank (s : String)
  | junk (s : String)
  | jlist (entries : List JEntry)
deriving DecidableEq

/-- One record of the persisted CSV file, holding the raw text of each cell
(used only when the corresponding column is present in the file).
The Due Date cell is abstracted to the result of
`pd.to_datetime(.., errors="coerce")`: `some day` for text parsing to that
calendar day, `none` for anything coerced to `NaT` (empty cell, "NaT",
malformed text). -/
structure RawRec where
  id : String
  task : String
  subs : SubsCell
  due : Option Int
  done : String
  sub1 : String
  sub2 : String
deriving DecidableEq

/-- A persisted CSV file: which columns are present, and the records. -/
structure RawFile where
  hasId : Bool
  hasTask : Bool
  hasSubs : Bool
  hasDone : Bool
  hasL1 : Bool
  hasL2 : Bool
  recs : List RawRec
deriving DecidableEq

/-! ## The pandas CSV layer -/

/-- Python whitespace, as stripped by `str.strip()`. -/
def isSpace (c : Char) : Bool :=
  c = ' ' || c = '\t' || c = '\n' || c = '\r' || c = '\x0b' || c = '\x0c'

/-- Python `str.strip()`: remove leading and trailing whitespace. -/
def pyStrip (s : String) : String :=
  String.mk (((s.data.dropWhile isSpace).reverse.dropWhile isSpace).reverse)

/-- Drop one leading sign character, as numeric parsers do. -/
def stripSign : List Char → List Char
  | c :: rest => if c = '-' || c = '+' then rest else c :: rest
  | [] => []

/-- pandas' default `na_values` sentinels: cells with these texts are read
as missing values (NaN). -/
def naTexts : List String :=
  ["", "#N/A", "#N/A N/A", "#NA", "-1.#IND", "-1.#QNAN", "-NaN", "-nan",
   "1.#IND", "1.#QNAN", "<NA>", "N/A", "NA", "NULL", "NaN", "None",
   "n/a", "nan", "null"]

def isNAtext (s : String) : Bool := naTexts.contains s

/-- Boolean literals recognized by the `read_csv` C parser. -/
def isTrueLit (s : String) : Bool := s = "True" || s = "TRUE" || s = "true"

def isFalseLit (s : String) : Bool := s = "False" || s = "FALSE" || s = "false"

def isBoolLit (s : String) : Bool := isTrueLit s || isFalseLit s

/-- Integer literal: optional sign then one or more digits (surrounding
whitespace tolerated, as by `strtol`). -/
def isIntLit (s : String) : Bool :=
  let u := stripSign (pyStrip s).data
  !u.isEmpty && u.all Char.isDigit

def natOfDigits (cs : List Char) : Nat :=
  cs.foldl (fun a c => a * 10 + (c.toNat - '0'.toNat)) 0

def parseIntLit (s : String) : Int :=
  match (pyStrip s).data with
  | '-' :: rest => -(natOfDigits rest : Int)
  | '+' :: rest => (natOfDigits rest : Int)
  | cs => (natOfDigits cs : Int)

/-- Digits-with-optional-point mantissa: at least one digit, at most one
point, nothing else. -/
def isMantissa (cs : List Char) : Bool :=
  cs.any Char.isDigit &&
  cs.all (fun c => c.isDigit || c = '.') &&
  (cs.countP (· = '.')) ≤ 1

/-- Split a char sequence at its first exponent marker. -/
def breakAtExp : List Char → List Char × Option (List Char)
  | [] => ([], none)
  | c :: rest =>
    if c = 'e' || c = 'E' then ([], some rest)
    else
      let p := breakAtExp rest
      (c :: p.1, p.2)

/-- Signed digit sequence (an exponent). -/
def isSignedDigits (cs : List Char) : Bool :=
  let u := stripSign cs
  !u.isEmpty && u.all Char.isDigit

/-- Numeric (float) literal as recognized by the `read_csv` C parser:
optional sign, mantissa, optional exponent; or an infinity spelling.
Integer literals are numeric literals too. -/
def isNumLit (s : String) : Bool :=
  let u := stripSign (pyStrip s).data
  if u = "inf".data || u = "Inf".data || u = "INF".data ||
     u = "Infinity".data || u = "infinity".data then true
  else
    match breakAtExp u with
    | (m, none) => isMantissa m
    | (m, some x) => isMantissa m && isSignedDigits x

/-- Whether a float literal denotes zero: every digit of its mantissa is 0. -/
def floatLitZero (s : String) : Bool :=
  let u := stripSign (pyStrip s).data
  let m := u.takeWhile (fun c => c ≠ 'e' && c ≠ 'E')
  m.any Char.isDigit && m.all (fun c => c = '0' || c = '.')

/-- Column-level type inference of `read_csv`: a column all of whose cells
are NA sentinels or boolean literals becomes boolean (NA cells stay
missing); else all-integer columns become integers, all-numeric columns
become floats, and anything else stays a string column with NA cells
missing. -/
def readCol (col : List String) : List Cell :=
  if col.all (fun s => isNAtext s || isBoolLit s) then
    col.map (fun s => if isNAtext s then Cell.na else Cell.boolC (isTrueLit s))
  else if col.all (fun s => isNAtext s || isIntLit s) then
    col.map (fun s => if isNAtext s then Cell.na else Cell.intC (parseIntLit s))
  else if col.all (fun s => isNAtext s || isNumLit s) then
    col.map (fun s => if isNAtext s then Cell.na else Cell.floatC s)
  else
    col.map (fun s => if isNAtext s then Cell.na else Cell.strC s)

/-- Python `str()` of a cell, as written by `DataFrame.to_csv` (missing
values are written as the empty string by default). -/
def pyStr : Cell → String
  | Cell.na => ""
  | Cell.boolC b => if b then "True" else "False"
  | Cell.intC n => toString n
  | Cell.floatC lit => lit
  | Cell.strC s => s

/-- Python truthiness of a cell: this is what `astype(bool)` computes
elementwise (note `bool(float("nan"))` is `True`). -/
def Cell.truthy : Cell → Bool
  | Cell.na => true
  | Cell.boolC b => b
  | Cell.intC n => n != 0
  | Cell.floatC lit => !floatLitZero lit
  | Cell.strC s => s != ""

def Cell.isNa : Cell → Bool
  | Cell.na => true
  | _ => false

/-- pandas elementwise `==` on cells: NaN compares unequal to everything,
itself included; cells of different kinds are modelled as unequal. -/
def cellEq : Cell → Cell → Bool
  | Cell.na, _ => false
  | _, Cell.na => false
  | Cell.boolC a, Cell.boolC b => a = b
  | Cell.intC a, Cell.intC b => a = b
  | Cell.floatC a, Cell.floatC b => a = b
  | Cell.strC a, Cell.strC b => a = b
  | _, _ => false

/-! ## load_df (src/app.py lines 13-83)

The pipeline: ensure expected columns exist (missing ones pre-filled with
the Python string ""), parse Due Date, coerce Done by `astype(bool)`,
mint ids for null id cells, then build the `Subtasks` column row by row
(structured JSON when the cell is a non-blank string, else migration from
the legacy `Subtask 1`/`Subtask 2` columns). -/

/-- The id fill of lines 41-45: it runs only when some id cell is null
(the first disjunct `"id" not in df_local.columns` of line 42 is always
false, because the normalization loop of lines 24-30 already added a
missing id column, filled with the Python string "" - which is not null).
When it runs, each cell is `fillna("")`-ed and replaced by a fresh
`uuid4().hex` when falsy. -/
def mintIds (sup : Nat → String) : Nat → List Cell → List Cell × Nat
  | k, [] => ([], k)
  | k, c :: cs =>
    let c0 := if c.isNa then Cell.strC "" else c
    let p : Cell × Nat := if c0.truthy then (c0, k) else (Cell.strC (sup k), k + 1)
    let q := mintIds sup p.2 cs
    (p.1 :: q.1, q.2)

/-- Normalization of one entry of a parsed `Subtasks` JSON list
(lines 57-63): the id is kept when it is a truthy dict entry and minted
fresh otherwise (the mint draws a uuid even when the entry is then dropped
for blank text); the entry is kept only when its text is truthy and
non-blank after stripping; a missing "done" key defaults to false. -/
def parseEntry (sup : Nat → String) (k : Nat) : JEntry → Option Sub × Nat
  | JEntry.dict idVal textVal doneVal =>
    let p : String × Nat := match idVal with
      | some s => if s ≠ "" then (s, k) else (sup k, k + 1)
      | none => (sup k, k + 1)
    let doneFlag := doneVal.getD false
    (match textVal with
     | none => (none, p.2)
     | some t => if t ≠ "" && pyStrip t ≠ "" then (some ⟨p.1, t, doneFlag⟩, p.2) else (none, p.2))
  | JEntry.scalar s =>
    (if s ≠ "" && pyStrip s ≠ "" then some ⟨sup k, s, false⟩ else none, k + 1)

def parseEntries (sup : Nat → String) : Nat → List JEntry → List Sub × Nat
  | k, [] => ([], k)
  | k, e :: es =>
    let p := parseEntry sup k e
    let q := parseEntries sup p.2 es
    (match p.1 with | some sb => sb :: q.1 | none => q.1, q.2)

/-- The value contributed by one legacy column to a record's migration
(lines 69-73): `none` when the column is absent from the file, when the
cell is missing, or when its `str()` form is blank after stripping;
otherwise the stripped text. -/
def legacyVal : Option Cell → Option String
  | none => none
  | some c =>
    if c.isNa then none
    else if pyStrip (pyStr c) = "" then none
    else some (pyStrip (pyStr c))

def legacyTexts (l1 l2 : Option Cell) : List String :=
  (match legacyVal l1 with | some t => [t] | none => []) ++
  (match legacyVal l2 with | some t => [t] | none => [])

/-- Legacy migration (lines 74-75): each collected text becomes a fresh
subtask with `done = False` and a minted id. -/
def legacyMigrate (sup : Nat → String) : Nat → List String → List Sub × Nat
  | k, [] => ([], k)
  | k, t :: ts =>
    let q := legacyMigrate sup (k + 1) ts
    (⟨sup k, t, false⟩ :: q.1, q.2)

/-- The `Subtasks` value of one record (lines 49-76): a non-blank string
cell goes through `json.loads` (lists are normalized entry by entry,
anything malformed yields the empty list); a missing or blank cell falls
back to legacy migration. -/
def rowSubs (sup : Nat → String) (k : Nat) (cell : SubsCell) (l1 l2 : Option Cell) :
    List Sub × Nat :=
  match cell with
  | SubsCell.jlist es => parseEntries sup k es
  | SubsCell.junk _ => ([], k)
  | SubsCell.na => legacyMigrate sup k (legacyTexts l1 l2)
  | SubsCell.blank _ => legacyMigrate sup k (legacyTexts l1 l2)

def buildSubs (sup : Nat → String) :
    Nat → List (SubsCell × Option Cell × Option Cell) → List (List Sub) × Nat
  | k, [] => ([], k)
  | k, (c, l1, l2) :: rest =>
    let p := rowSubs sup k c l1 l2
    let q := buildSubs sup p.2 rest
    (p.1 :: q.1, q.2)

def zip3 {α β γ : Type} : List α → List β → List γ → List (α × β × γ)
  | a :: as, b :: bs, c :: cs => (a, b, c) :: zip3 as bs cs
  | _, _, _ => []

/-- Assembly of the final frame from its five columns. -/
def assemble : List Cell → List Cell → List (List Sub) → List Due → List Bool → List Row
  | i :: is, t :: ts, s :: ss, d :: ds, b :: bs =>
    ⟨i, t, s, d, b⟩ :: assemble is ts ss ds bs
  | _, _, _, _, _ => []

/-- The id column after the column-normalization loop of lines 24-30 and
`read_csv`: read from the file when present, else pre-filled with the
Python string "" (which is not a missing value). -/
def idCol0F (f : RawFile) : List Cell :=
  if f.hasId then readCol (f.recs.map (fun r => r.id))
  else List.replicate f.recs.length (Cell.strC "")

/-- The id fill of lines 41-45 applied to the id column, paired with the
uuid draw counter after it: it runs only when some cell is null. -/
def idColPair (f : RawFile) (sup : Nat → String) : List Cell × Nat :=
  if (idCol0F f).any Cell.isNa then mintIds sup 0 (idCol0F f) else (idCol0F f, 0)

/-- The Task column (pre-filled with "" when absent, like every expected
column). -/
def taskColF (f : RawFile) : List Cell :=
  if f.hasTask then readCol (f.recs.map (fun r => r.task))
  else List.replicate f.recs.length (Cell.strC "")

/-- The Due Date column after lines 31-35. -/
def dueColF (f : RawFile) : List Due :=
  f.recs.map (fun r => match r.due with
    | some day => Due.d day
    | none => Due.naT)

/-- The Done column after the `astype(bool)` coercion of lines 36-40. -/
def doneColF (f : RawFile) : List Bool :=
  (if f.hasDone then readCol (f.recs.map (fun r => r.done))
   else List.replicate f.recs.length (Cell.strC "")).map Cell.truthy

/-- The raw Subtasks cells: from the file when the column is present, else
the pre-filled blank string. -/
def subsRawF (f : RawFile) : List SubsCell :=
  if f.hasSubs then f.recs.map (fun r => r.subs)
  else List.replicate f.recs.length (SubsCell.blank "")

/-- The `Subtask 1` legacy column: `none` cells when the column is absent
from the file (`row.get(colname, "")` is only consulted for present
columns, line 70). -/
def l1ColF (f : RawFile) : List (Option Cell) :=
  if f.hasL1 then (readCol (f.recs.map (fun r => r.sub1))).map some
  else List.replicate f.recs.length none

/-- The `Subtask 2` legacy column, as `l1ColF`. -/
def l2ColF (f : RawFile) : List (Option Cell) :=
  if f.hasL2 then (readCol (f.recs.map (fun r => r.sub2))).map some
  else List.replicate f.recs.length none

/-- `load_df` on an existing file (lines 19-79); `sup` is the stream of
`uuid4().hex` draws, consumed in program order (id fill first, then the
row loop over subtasks). The missing-file branch (lines 80-83) returns an
empty frame and is not needed by any claim. -/
def loadDf (f : RawFile) (sup : Nat → String) : List Row :=
  assemble (idColPair f sup).1 (taskColF f)
    ((buildSubs sup (idColPair f sup).2 (zip3 (subsRawF f) (l1ColF f) (l2ColF f))).1)
    (dueColF f) (doneColF f)

/-! ## save_df (src/app.py lines 86-109) -/

/-- `serialize_subs` on a list cell (lines 90-98): only subtasks with
non-blank text are kept; all three keys are written. -/
def cleanSubs (subs : List Sub) : List Sub :=
  subs.filter (fun s => s.text ≠ "" && pyStrip s.text ≠ "")

/-- The file written by `save_df` for a normalized in-memory frame: the
Subtasks cell is the JSON text of the cleaned list (structurally embedded,
always a non-blank string such as "[]"), the Due Date cell is the ISO date
text for a date and otherwise text that `to_datetime` coerces to `NaT`
(`""` for the cleared-date cell; `pd.NaT.isoformat()` is the text "NaT"),
and Done is written as "True"/"False". A frame loaded from a legacy file
still carries its `Subtask 1`/`Subtask 2` columns into the saved file;
they are omitted here because a reload never consults them (the saved
Subtasks cell is always non-blank). -/
def saveRec (r : Row) : RawRec where
  id := pyStr r.id
  task := pyStr r.task
  subs := SubsCell.jlist ((cleanSubs r.subtasks).map
    (fun s => JEntry.dict (some s.id) (some s.text) (some s.done)))
  due := match r.due with
    | Due.d day => some day
    | Due.naT => none
    | Due.emptyStr => none
  done := if r.done then "True" else "False"
  sub1 := ""
  sub2 := ""

/-- The whole file written by `save_df`: all five expected columns, one
record per row, no legacy columns. -/
def saveFile (rows : List Row) : RawFile where
  hasId := true
  hasTask := true
  hasSubs := true
  hasDone := true
  hasL1 := false
  hasL2 := false
  recs := rows.map saveRec

/-! ## Session state and the task operations (src/app.py lines 120-285)

Each operation reads `st.session_state["df"]`, applies one change and calls
`save_df`. The state carries the in-memory frame, the persisted file, a
count of `save_df` invocations (to express "no save is performed") and the
uuid draw counter. Widget values (checkbox states, input texts, dates) are
passed as arguments. -/

structure AppState where
  rows : List Row
  file : Option RawFile
  saveCount : Nat
  uuidK : Nat
deriving DecidableEq

/-- `save_df(df)` inside an operation: rewrites the whole file from the
(updated) frame. -/
def doSave (rows : List Row) (st : AppState) : AppState :=
  { st with rows := rows, file := some (saveFile rows), saveCount := st.saveCount + 1 }

/-- Whether any row matches the id mask `df["id"] == task_id`. -/
def hasTaskId (rows : List Row) (tid : Cell) : Bool :=
  rows.any (fun r => cellEq r.id tid)

/-- `set_done_from_checkbox` (lines 120-132): sets task-level Done on the
masked rows and saves; nothing happens when the mask is empty. -/
def setDoneFromCheckbox (tid : Cell) (v : Bool) (st : AppState) : AppState :=
  if hasTaskId st.rows tid then
    doSave (st.rows.map (fun r => if cellEq r.id tid then { r with done := v } else r)) st
  else st

/-- The in-place loop of `set_subtask_done`: sets `done` on the first
subtask whose id matches, then breaks. -/
def setFirstSubDone (sid : String) (v : Bool) : List Sub → List Sub
  | [] => []
  | s :: ss => if s.id = sid then { s with done := v } :: ss
               else s :: setFirstSubDone sid v ss

/-- `set_subtask_done` (lines 135-156): reads the subtask list of the first
masked row, flips the first matching subtask, and writes back and saves
only when something matched. Fidelity scope: the early-return paths
(empty mask; no subtask with the given id, so `changed` stays false) are
exact embeddings, and they are the only paths any claim statement
reaches. The matched branch models the intended clean write-back; under
pandas' elementwise list assignment it would instead unwrap the list or
raise (see `deleteSubtaskCall` for those semantics). -/
def setSubtaskDone (tid : Cell) (sid : String) (v : Bool) (st : AppState) : AppState :=
  match st.rows.find? (fun r => cellEq r.id tid) with
  | none => st
  | some r0 =>
    if r0.subtasks.any (fun s => s.id = sid) then
      let subs := setFirstSubDone sid v r0.subtasks
      doSave (st.rows.map (fun r => if cellEq r.id tid then { r with subtasks := subs } else r)) st
    else st

/-- `add_subtask` (lines 159-179), simplified form: strips the text and
rejects blanks before touching anything, then appends a fresh subtask and
saves. Fidelity scope: the early returns (blank text at lines 161-163;
empty mask) are exact embeddings and are the only paths any claim
statement reaches through this form; the append-and-save path here is the
intended behaviour, not what pandas executes - the faithful write path is
`addSubtaskCall` below, on which claim C10 is settled. -/
def addSubtask (sup : Nat → String) (tid : Cell) (text0 : String) (st : AppState) : AppState :=
  let text := pyStrip text0
  if text = "" then st
  else
    match st.rows.find? (fun r => cellEq r.id tid) with
    | none => st
    | some r0 =>
      let subs := r0.subtasks ++ [⟨sup st.uuidK, text, false⟩]
      let st1 := doSave (st.rows.map (fun r =>
        if cellEq r.id tid then { r with subtasks := subs } else r)) st
      { st1 with uuidK := st.uuidK + 1 }

/-- `save_edits` (lines 197-213): overwrites Task and Due Date on the
masked rows and saves; a falsy `new_due` writes the empty string. -/
def saveEdits (tid : Cell) (newTask : String) (newDue : Option Int) (st : AppState) : AppState :=
  if hasTaskId st.rows tid then
    doSave (st.rows.map (fun r =>
      if cellEq r.id tid then
        { r with task := Cell.strC newTask
                 due := match newDue with
                   | some day => Due.d day
                   | none => Due.emptyStr }
      else r)) st
  else st

/-- `snooze_task` (lines 216-232): reads the first masked row's Due Date;
`isinstance(current, date)` holds for a real date but also for `pd.NaT`
(whose type subclasses `datetime`), and `NaT + timedelta(days) = NaT`;
only a non-date cell (the empty string) falls to `date.today() + days`. -/
def snoozeTask (tid : Cell) (days : Int) (today : Int) (st : AppState) : AppState :=
  match st.rows.find? (fun r => cellEq r.id tid) with
  | none => st
  | some r0 =>
    let newDue := match r0.due with
      | Due.d day => Due.d (day + days)
      | Due.naT => Due.naT
      | Due.emptyStr => Due.d (today + days)
    doSave (st.rows.map (fun r =>
      if cellEq r.id tid then { r with due := newDue } else r)) st

/-- The subtask lines of the new-task form: one subtask per non-blank
stripped line, each with a fresh id (lines 270-275). -/
def subsFromLines (sup : Nat → String) : Nat → List String → List Sub × Nat
  | k, [] => ([], k)
  | k, line :: rest =>
    let txt := pyStrip line
    if txt = "" then subsFromLines sup k rest
    else
      let q := subsFromLines sup (k + 1) rest
      (⟨sup k, txt, false⟩ :: q.1, q.2)

/-- The `task_form` submit handler (lines 267-285): a falsy (empty) title
means nothing happens at all; otherwise the subtask list is built from the
lines, a fresh task id is drawn, the row is appended with `done = False`
and the frame is saved. -/
def taskFormSubmit (sup : Nat → String) (taskName : String) (lines : List String)
    (due : Int) (st : AppState) : AppState :=
  if taskName = "" then st
  else
    let p := subsFromLines sup st.uuidK lines
    let newRow : Row :=
      { id := Cell.strC (sup p.2)
        task := Cell.strC taskName
        subtasks := p.1
        due := Due.d due
        done := false }
    let st1 := doSave (st.rows ++ [newRow]) st
    { st1 with uuidK := p.2 + 1 }

/-- Modelled from the spec: `delete_task(id)` is invoked by the UI at
src/app.py lines 351 and 409 but no definition of it appears anywhere in
the source. Per the spec it "removes Task and all its subtasks" (a Task's
subtasks live inside its row, so removing the row discards them), is a
no-op for an absent id, and like every mutation persists the collection. -/
def deleteTask (tid : Cell) (st : AppState) : AppState :=
  if hasTaskId st.rows tid then
    doSave (st.rows.filter (fun r => ¬cellEq r.id tid)) st
  else st

/-! ## The pandas elementwise list write

`df.loc[mask, "Subtasks"] = xs` with a Python list `xs` does not store
`xs` in the masked cell: pandas aligns a list-like right-hand side
elementwise with the masked rows. When `xs.length` differs from the
number of masked rows it raises `ValueError` and writes nothing; when
they agree, the j-th masked row's cell receives the bare j-th element -
for this app's single-row masks, the bare subtask dict instead of the
list. `delete_subtask` and `add_subtask` run through this write, so their
faithful models return a `CallbackResult`: the frame (whose Subtasks
cells may now hold a bare dict), the persisted file, the save and uuid
counters, and the exception propagating out of the Streamlit callback, if
any. The models take frames whose Subtasks cells are lists - the shape
`load_df` and the task form produce; re-invoking a callback on an already
mangled frame (where iterating the cell walks dict keys and raises
`AttributeError`) is outside every claim and not modelled. -/

/-- A Python exception escaping a callback. -/
inductive PyErr
  | valueErr
deriving DecidableEq

/-- A Subtasks cell after a possible elementwise `.loc` write: the list
shape produced by `load_df` and the task form, or the bare dict that a
one-element list assignment unwraps into the cell. -/
inductive SubsVal
  | list (subs : List Sub)
  | bare (s : Sub)
deriving DecidableEq

/-- A row whose Subtasks cell may have been mangled by an elementwise
list write. -/
structure RowX where
  id : Cell
  task : Cell
  subsCell : SubsVal
  due : Due
  done : Bool
deriving DecidableEq

def Row.toX (r : Row) : RowX :=
  { id := r.id, task := r.task, subsCell := SubsVal.list r.subtasks,
    due := r.due, done := r.done }

/-- The observable outcome of running a subtask callback: the in-memory
frame afterwards, the persisted file, the save and uuid-draw counters,
and the exception that propagated, if any. -/
structure CallbackResult where
  rows : List RowX
  file : Option RawFile
  saveCount : Nat
  uuidK : Nat
  exc : Option PyErr
deriving DecidableEq

/-- The result of a callback that returned without touching anything. -/
def noChange (st : AppState) : CallbackResult :=
  { rows := st.rows.map Row.toX, file := st.file, saveCount := st.saveCount,
    uuidK := st.uuidK, exc := none }

/-- The successful elementwise `.loc` write: thread the list over the
masked rows in order, each masked cell receiving the bare element. Only
called when the list's length equals the masked row count. -/
def writeBare (tid : Cell) : List Row → List Sub → List RowX
  | [], _ => []
  | r :: rs, xs =>
    if cellEq r.id tid then
      match xs with
      | x :: xs2 =>
        { id := r.id, task := r.task, subsCell := SubsVal.bare x,
          due := r.due, done := r.done } :: writeBare tid rs xs2
      | [] => Row.toX r :: writeBare tid rs []
    else Row.toX r :: writeBare tid rs xs

/-- The in-place `subs.append(...)` of `add_subtask` when the cell's own
list was retrieved (`iat[0]`): it mutates the first masked row's list
before the `.loc` write runs. -/
def appendFirstMatched (tid : Cell) (x : Sub) : List Row → List Row
  | [] => []
  | r :: rs =>
    if cellEq r.id tid then { r with subtasks := r.subtasks ++ [x] } :: rs
    else r :: appendFirstMatched tid x rs

/-- `json.dumps` of a bare subtask dict, as `serialize_subs` emits for a
non-list, non-NaN, non-string cell (line 104); string escaping is elided,
which no claim observes - on reload any such text is a non-list JSON
value and yields the empty subtask list. -/
def jsonOfSub (s : Sub) : String :=
  "\x7b\"id\": \"" ++ s.id ++ "\", \"text\": \"" ++ s.text ++
    "\", \"done\": " ++ (if s.done then "true" else "false") ++ "\x7d"

/-- `save_df` on a possibly-mangled row: a list cell is serialized as the
cleaned JSON list (as in `saveRec`); a bare dict cell falls through
`serialize_subs` to `json.dumps(cell)`, leaving JSON-object text that a
reload treats as junk (its `json.loads` result is not a list). -/
def saveRecX (r : RowX) : RawRec :=
  { id := pyStr r.id
    task := pyStr r.task
    subs := match r.subsCell with
      | SubsVal.list subs => SubsCell.jlist ((cleanSubs subs).map
          (fun s => JEntry.dict (some s.id) (some s.text) (some s.done)))
      | SubsVal.bare s => SubsCell.junk (jsonOfSub s)
    due := match r.due with
      | Due.d day => some day
      | Due.naT => none
      | Due.emptyStr => none
    done := if r.done then "True" else "False"
    sub1 := ""
    sub2 := "" }

def saveFileX (rows : List RowX) : RawFile where
  hasId := true
  hasTask := true
  hasSubs := true
  hasDone := true
  hasL1 := false
  hasL2 := false
  recs := rows.map saveRecX

/-- `delete_subtask` (lines 182-194) as pandas executes it: filter the
first masked row's list by id into a fresh list (no aliasing), then
assign it to the masked cells elementwise. On a length mismatch with the
masked row count the assignment raises ValueError - the collection and
file are untouched (the filtered list was fresh) and no save runs; on a
match each masked cell receives the bare element (for a unique task with
exactly one subtask surviving the filter: the bare dict) and the mangled
frame is saved. There is no `changed` guard, so this runs even when no
subtask id matched. -/
def deleteSubtaskCall (tid : Cell) (sid : String) (st : AppState) : CallbackResult :=
  match st.rows.find? (fun r => cellEq r.id tid) with
  | none => noChange st
  | some r0 =>
    let newSubs := r0.subtasks.filter (fun s => ¬(s.id = sid))
    let m := st.rows.countP (fun r => cellEq r.id tid)
    if newSubs.length = m then
      let rowsX := writeBare tid st.rows newSubs
      { rows := rowsX, file := some (saveFileX rowsX),
        saveCount := st.saveCount + 1, uuidK := st.uuidK, exc := none }
    else
      { noChange st with exc := some PyErr.valueErr }

/-- `add_subtask` (lines 159-179) as pandas executes it. The guards are
the source's: blank text after stripping, then empty mask. Past them,
`df.loc[mask, "Subtasks"].iat[0] or []` is the cell's own list when the
task has subtasks - so `subs.append(...)` mutates the cell in place - and
a fresh one-element list when it has none; `uuid4` is drawn either way.
The elementwise `.loc` write then raises ValueError on a length mismatch
with the masked row count, leaving the in-place append as the only
surviving effect and reaching no save; on a match it writes the bare
elements into the masked cells and saves - for a task with no subtasks
and a one-row mask, the bare new dict replaces the cell. -/
def addSubtaskCall (sup : Nat → String) (tid : Cell) (text0 : String)
    (st : AppState) : CallbackResult :=
  let text := pyStrip text0
  if text = "" then noChange st
  else
    match st.rows.find? (fun r => cellEq r.id tid) with
    | none => noChange st
    | some r0 =>
      let newSub : Sub := ⟨sup st.uuidK, text, false⟩
      let m := st.rows.countP (fun r => cellEq r.id tid)
      if r0.subtasks.isEmpty then
        if 1 = m then
          let rowsX := writeBare tid st.rows [newSub]
          { rows := rowsX, file := some (saveFileX rowsX),
            saveCount := st.saveCount + 1, uuidK := st.uuidK + 1, exc := none }
        else
          { noChange st with uuidK := st.uuidK + 1, exc := some PyErr.valueErr }
      else
        let subs := r0.subtasks ++ [newSub]
        let rowsApp := appendFirstMatched tid newSub st.rows
        if subs.length = m then
          let rowsX := writeBare tid rowsApp subs
          { rows := rowsX, file := some (saveFileX rowsX),
            saveCount := st.saveCount + 1, uuidK := st.uuidK + 1, exc := none }
        else
          { rows := rowsApp.map Row.toX, file := st.file,
            saveCount := st.saveCount, uuidK := st.uuidK + 1,
            exc := some PyErr.valueErr }

/-! ## Spec-side definitions for the round-trip and coercion claims -/

/-- The round-trip claim's normalization of a due date: dates are kept to
day precision and an absent due date (whether the `NaT` produced by load
or the empty string written by `save_edits`) stays absent, canonically the
`NaT` state that `load_df` produces. -/
def normDue : Due → Due
  | Due.d day => Due.d day
  | Due.naT => Due.naT
  | Due.emptyStr => Due.naT

/-- The round-trip claim's normalization of a task: ids, titles and done
flags preserved, subtasks preserved in order, blank-text subtasks removed,
absent due dates staying absent. -/
def specNormalizeRow (r : Row) : Row :=
  { r with subtasks := cleanSubs r.subtasks, due := normDue r.due }

/-- A string that the CSV layer hands back verbatim: not an NA sentinel
(in particular not empty), not a boolean literal, and not numeric. Task
ids and titles of this shape survive `to_csv` followed by `read_csv`
unchanged. -/
def plainStr (s : String) : Bool :=
  !isNAtext s && !isBoolLit s && !isIntLit s && !isNumLit s

/-- A cell holding a plain string (the shape of ids and titles that the
round-trip claim can preserve). -/
def plainStrCell : Cell → Bool
  | Cell.strC s => plainStr s
  | _ => false

/-- The coercion the code actually applies to a Done cell (amended claim):
Python truthiness of the cell produced by column inference. An empty cell
is NaN, and `bool(nan)` is `True`; boolean literals keep their value;
numeric cells map to their non-zero-ness; every other string cell is
non-empty, hence truthy. -/
def specDoneCoercion (s : String) : Bool :=
  if isNAtext s then true
  else if isBoolLit s then isTrueLit s
  else if isIntLit s then parseIntLit s != 0
  else if isNumLit s then !floatLitZero s
  else true

/-! ## Concrete fixtures for witnesses and counterexamples -/

/-- A uuid4().hex supply for concrete runs; every value is non-empty, so
any empty id in a result is not a minted one. -/
def sup0 : Nat → String := fun n => String.mk ('u' :: List.replicate n 'x')

/-- A file whose id column is missing entirely (only a Task column), with
one record. The column-normalization loop gives every record the Python
string "" as id, which is not null, so the minting branch never runs. -/
def c2file : RawFile :=
  { hasId := false, hasTask := true, hasSubs := false, hasDone := false,
    hasL1 := false, hasL2 := false,
    recs := [{ id := "", task := "A", subs := SubsCell.na, due := none,
               done := "", sub1 := "", sub2 := "" }] }

/-- A file with one record whose Done cell holds the string "no". -/
def c3file : RawFile :=
  { hasId := true, hasTask := true, hasSubs := false, hasDone := true,
    hasL1 := false, hasL2 := false,
    recs := [{ id := "t1", task := "A", subs := SubsCell.na, due := none,
               done := "no", sub1 := "", sub2 := "" }] }

/-- A minimal single-record file with Done cell `s`, used to characterize
the Done coercion cell by cell (type inference is column-level, so a
single-record file exhibits exactly the per-cell behaviour). -/
def mkDoneFile (s : String) : RawFile :=
  { hasId := false, hasTask := false, hasSubs := false, hasDone := true,
    hasL1 := false, hasL2 := false,
    recs := [{ id := "", task := "", subs := SubsCell.na, due := none,
               done := s, sub1 := "", sub2 := "" }] }

/-- The migration claim's file: legacy columns `Subtask 1` = "Buy milk"
and `Subtask 2` = "" and no structured `Subtasks` column. -/
def c5file : RawFile :=
  { hasId := false, hasTask := true, hasSubs := false, hasDone := false,
    hasL1 := true, hasL2 := true,
    recs := [{ id := "", task := "Chores", subs := SubsCell.na, due := none,
               done := "", sub1 := "Buy milk", sub2 := "" }] }

/-- A collection on which the round-trip claim fails as stated: a single
task titled "True". `to_csv` writes the Task column cell as "True", and
`read_csv` turns that column into a boolean column, so the loaded title is
the boolean `True`, not the string "True". -/
def cexRows : List Row :=
  [{ id := Cell.strC "aa1", task := Cell.strC "True", subtasks := [],
     due := Due.naT, done := false }]

/-- A well-behaved concrete collection for the round-trip witness. -/
def rtRows : List Row :=
  [{ id := Cell.strC "aa1", task := Cell.strC "Buy milk",
     subtasks := [⟨"s1", "wash", true⟩, ⟨"s2", "  ", false⟩],
     due := Due.d 5, done := true },
   { id := Cell.strC "bb2", task := Cell.strC "Chill",
     subtasks := [], due := Due.naT, done := false }]

/-- A concrete session state with two tasks, the first carrying one
subtask with id "s1". -/
def demoRows : List Row :=
  [{ id := Cell.strC "t1", task := Cell.strC "Groceries",
     subtasks := [⟨"s1", "milk", false⟩], due := Due.d 10, done := false },
   { id := Cell.strC "t2", task := Cell.strC "Taxes",
     subtasks := [], due := Due.naT, done := false }]

def demoState : AppState :=
  { rows := demoRows, file := some (saveFile demoRows), saveCount := 0, uuidK := 0 }

/-- A state holding one task that was loaded with no due date: its Due
Date cell is `NaT`. -/
def natDueState : AppState :=
  { rows := [{ id := Cell.strC "t1", task := Cell.strC "A", subtasks := [],
               due := Due.naT, done := false }],
    file := none, saveCount := 0, uuidK := 0 }

/-! ## Helper lemmas -/

theorem listForall2MapSelf {α : Type} {R : α → α → Prop} {f : α → α} {l : List α}
    (h : ∀ x ∈ l, R x (f x)) : List.Forall₂ R l (l.map f) := by
  induction l with
  | nil => simp
  | cons a t ih =>
    simp only [List.map_cons]
    exact List.Forall₂.cons (h a (by simp)) (ih (fun x hx => h x (by simp [hx])))

theorem find?_none_of_hasTaskId_false {rows : List Row} {tid : Cell}
    (h : hasTaskId rows tid = false) :
    rows.find? (fun r => cellEq r.id tid) = none := by
  rw [List.find?_eq_none]
  intro r hr
  have := (List.any_eq_false.mp h) r hr
  simpa using this

/-! ## Claim C9: snooze on a task with no due date

The claim (and spec) say `snooze(id, 3)` on a task with no due date sets
the due date to today + 3. The code reads the Due Date cell of a task
loaded with no due date as `pd.NaT`, which passes the
`isinstance(current, date)` check (NaT's type subclasses `datetime`), so
it computes `NaT + timedelta(days=3) = NaT` and the task still has no due
date. -/

/-- Claim C9 (code bug, evaluated at the failing input): snoozing the task
of `natDueState` (one task whose Due Date cell is the `NaT` produced by
loading an empty Due Date cell) by 3 days with today = 100 leaves its due
date `NaT`, which is not the `today + 3` the claim requires. -/
theorem claim9_snooze_nat_due :
    (snoozeTask (Cell.strC "t1") 3 100 natDueState).rows.map (fun r => r.due) = [Due.naT] ∧
    Due.naT ≠ Due.d 103 := by decide

/-! ## Claim C2: ids minted on load -/

/-- Claim C2 (code bug, evaluated at the failing input): loading a file
whose id column is missing entirely leaves every task with the empty-string
id. The column-normalization loop (lines 24-30) adds the missing id column
pre-filled with the Python string "", which is not null, so the minting
branch of lines 41-45 (whose `"id" not in df_local.columns` disjunct is
dead by that point) is skipped, and no fresh id is minted even though the
supply (`sup0`) only produces non-empty ids. -/
theorem claim2_missing_id_column :
    (loadDf c2file sup0).map (fun r => r.id) = [Cell.strC ""] := by decide

/-! ## Claim C3: coercion of Done on load -/

/-- Counterexample to claim C3 as stated: the claim says every string form
other than "true"/"1"/"yes" maps to false, but a record whose Done cell
holds "no" loads with `done = true`: `astype(bool)` succeeds on object
columns by applying Python truthiness, so the string-forms fallback of
line 40 never runs and the non-empty string "no" is truthy. -/
theorem claim3_counterexample :
    (loadDf c3file sup0).map (fun r => r.done) = [true] := by decide

/-- A string that is not an NA sentinel is in particular non-empty. -/
theorem ne_empty_of_isNAtext_false {s : String} (h : isNAtext s = false) : s ≠ "" := by
  intro hs
  subst hs
  simp [isNAtext, naTexts] at h

/-- Claim C3 as amended: loading a record coerces its Done cell to the
Python truth value of the cell produced by column inference
(`specDoneCoercion`): boolean literals keep their value (so "true" in any
case maps to true and lowercase "false" alone in its column maps to
false), numeric cells map to their non-zero-ness (so "1" maps to true),
missing cells - empty or an NA sentinel - map to true because
`bool(nan)` is `True`, and every other string, "yes" and "no" alike, is a
non-empty string and maps to true. -/
theorem claim3_done_truthiness (s : String) :
    (loadDf (mkDoneFile s) sup0).map (fun r => r.done) = [specDoneCoercion s] := by
  by_cases h1 : isNAtext s = true
  · simp [loadDf, mkDoneFile, readCol, specDoneCoercion, Cell.truthy,
          buildSubs, rowSubs, legacyTexts, legacyVal, legacyMigrate, assemble,
          mintIds, Cell.isNa, zip3, h1, idCol0F, idColPair, taskColF, dueColF,
          doneColF, subsRawF, l1ColF, l2ColF]
  · have hne : (s != "") = true := by
      simpa using ne_empty_of_isNAtext_false (by simpa using h1)
    by_cases h2 : isBoolLit s = true <;> by_cases h3 : isIntLit s = true <;>
      by_cases h4 : isNumLit s = true <;>
      simp [loadDf, mkDoneFile, readCol, specDoneCoercion, Cell.truthy,
            buildSubs, rowSubs, legacyTexts, legacyVal, legacyMigrate, assemble,
            mintIds, Cell.isNa, zip3, h1, h2, h3, h4, hne, idCol0F, idColPair,
            taskColF, dueColF, doneColF, subsRawF, l1ColF, l2ColF]

/-! ## Claim C1: round-trip -/

/-- Counterexample to claim C1 as stated: the collection `cexRows` holds a
single task titled "True". Its saved Task cell reads back as a boolean
column, so the loaded collection differs from the normalized original
(whose title is still the string "True"). -/
theorem claim1_counterexample :
    loadDf (saveFile cexRows) sup0 ≠ cexRows.map specNormalizeRow ∧
    (loadDf (saveFile cexRows) sup0).map (fun r => r.task) = [Cell.boolC true] := by decide

/-! ## Claim C7: blank rejection -/

/-- Claim C7: submitting the new-task form with an empty title does
nothing (no mutation, no save, the persisted file as before), and
`add_subtask` with text that is empty after stripping likewise returns
before touching the frame or saving. Equality of whole `AppState`s covers
the collection, the persisted file and the save counter at once. -/
theorem claim7_blank_rejection (sup : Nat → String) (lines : List String) (due : Int)
    (st : AppState) (tid : Cell) (text : String) (st2 : AppState)
    (hblank : pyStrip text = "") :
    taskFormSubmit sup "" lines due st = st ∧ addSubtask sup tid text st2 = st2 := by
  constructor
  · simp [taskFormSubmit]
  · simp [addSubtask, hblank]

theorem claim7_blank_witness :
    taskFormSubmit sup0 "" ["milk"] 7 demoState = demoState ∧
    addSubtask sup0 (Cell.strC "t1") "   " demoState = demoState :=
  claim7_blank_rejection sup0 ["milk"] 7 demoState (Cell.strC "t1") "   " demoState (by decide)

/-! ## Claim C6: edit overwrites only title and due date -/

/-- Claim C6: for a task id present in the collection, `save_edits`
overwrites only the title and the due date of the rows matching the id:
row for row, the id, the subtask list and the done flag are unchanged,
rows with a different id are completely unchanged, and the matching rows
get exactly the new title and the new due date (a cleared date becomes the
empty-string cell). -/
theorem claim6_edit_frame (tid : Cell) (newTask : String) (newDue : Option Int)
    (st : AppState) (hpres : hasTaskId st.rows tid = true) :
    List.Forall₂ (fun r r1 =>
      r1.id = r.id ∧ r1.subtasks = r.subtasks ∧ r1.done = r.done ∧
      (cellEq r.id tid = false → r1 = r) ∧
      (cellEq r.id tid = true →
        r1.task = Cell.strC newTask ∧
        r1.due = (match newDue with | some day => Due.d day | none => Due.emptyStr)))
      st.rows (saveEdits tid newTask newDue st).rows := by
  have h : (saveEdits tid newTask newDue st).rows =
      st.rows.map (fun r =>
        if cellEq r.id tid then
          { r with task := Cell.strC newTask
                   due := match newDue with
                     | some day => Due.d day
                     | none => Due.emptyStr }
        else r) := by
    simp [saveEdits, hpres, doSave]
  rw [h]
  apply listForall2MapSelf
  intro r _
  by_cases hc : cellEq r.id tid = true
  · simp [hc]
  · have hc2 : cellEq r.id tid = false := by simpa using hc
    simp [hc2]

theorem claim6_edit_witness :
    List.Forall₂ (fun r r1 =>
      r1.id = r.id ∧ r1.subtasks = r.subtasks ∧ r1.done = r.done ∧
      (cellEq r.id (Cell.strC "t1") = false → r1 = r) ∧
      (cellEq r.id (Cell.strC "t1") = true →
        r1.task = Cell.strC "Taxes 2024" ∧
        r1.due = (match (some 42 : Option Int) with
          | some day => Due.d day
          | none => Due.emptyStr)))
      demoState.rows (saveEdits (Cell.strC "t1") "Taxes 2024" (some 42) demoState).rows :=
  claim6_edit_frame (Cell.strC "t1") "Taxes 2024" (some 42) demoState (by decide)

/-! ## Claim C4: deletion cascade -/

/-- Claim C4: `delete_task(id)` removes the task's rows - and with them
their embedded subtask lists - from the collection, and a subsequent
`set_subtask_done` naming the deleted task and any of its former subtask
ids is a no-op (the id mask is empty, so the callback returns before
touching or saving anything). The reason for `delete_task` being modelled
from the spec is given at its definition. -/
theorem claim4_delete_cascade (tid : Cell) (st : AppState)
    (hpres : hasTaskId st.rows tid = true) :
    (deleteTask tid st).rows = st.rows.filter (fun r => ¬cellEq r.id tid) ∧
    (∀ r ∈ (deleteTask tid st).rows, cellEq r.id tid = false) ∧
    (∀ sid v, setSubtaskDone tid sid v (deleteTask tid st) = deleteTask tid st) := by
  have hrows : (deleteTask tid st).rows = st.rows.filter (fun r => ¬cellEq r.id tid) := by
    simp [deleteTask, hpres, doSave]
  refine ⟨hrows, ?_, ?_⟩
  · intro r hr
    rw [hrows] at hr
    have := (List.mem_filter.mp hr).2
    simpa using this
  · intro sid v
    have hnone : (deleteTask tid st).rows.find? (fun r => cellEq r.id tid) = none := by
      rw [List.find?_eq_none]
      intro r hr
      rw [hrows] at hr
      have := (List.mem_filter.mp hr).2
      simpa using this
    simp [setSubtaskDone, hnone]

theorem claim4_delete_witness :
    (deleteTask (Cell.strC "t1") demoState).rows =
      demoState.rows.filter (fun r => ¬cellEq r.id (Cell.strC "t1")) ∧
    (∀ r ∈ (deleteTask (Cell.strC "t1") demoState).rows,
      cellEq r.id (Cell.strC "t1") = false) ∧
    (∀ sid v, setSubtaskDone (Cell.strC "t1") sid v (deleteTask (Cell.strC "t1") demoState) =
      deleteTask (Cell.strC "t1") demoState) :=
  claim4_delete_cascade (Cell.strC "t1") demoState (by decide)

/-! ## Claim C10: add_subtask -/

/-- Claim C10 (code bug, evaluated at the failing inputs): `add_subtask`
does not append-and-persist one subtask. On `demoState`:
for task "t1", which already has one subtask, the appended list (length 2)
is aligned against the single masked row, so the `.loc` write raises
ValueError - the new stripped subtask survives only through the in-place
append to the cell's own list, nothing is saved, and the exception
propagates, contradicting the claim and `add_subtask`'s own docstring
"(immediate persist)". For task "t2", which has none, the fresh
one-element list is unwrapped elementwise and the bare dict replaces the
cell, which then no longer holds a subtask sequence at all; the mangled
frame is saved. -/
theorem claim10_add_subtask_bug :
    ((addSubtaskCall sup0 (Cell.strC "t1") " vacuum " demoState).exc =
        some PyErr.valueErr ∧
     (addSubtaskCall sup0 (Cell.strC "t1") " vacuum " demoState).saveCount =
        demoState.saveCount ∧
     (addSubtaskCall sup0 (Cell.strC "t1") " vacuum " demoState).rows.map
        (fun r => r.subsCell) =
       [SubsVal.list [⟨"s1", "milk", false⟩, ⟨sup0 0, "vacuum", false⟩],
        SubsVal.list []]) ∧
    ((addSubtaskCall sup0 (Cell.strC "t2") "write spec" demoState).exc = none ∧
     (addSubtaskCall sup0 (Cell.strC "t2") "write spec" demoState).saveCount =
        demoState.saveCount + 1 ∧
     (addSubtaskCall sup0 (Cell.strC "t2") "write spec" demoState).rows.map
        (fun r => r.subsCell) =
       [SubsVal.list [⟨"s1", "milk", false⟩],
        SubsVal.bare ⟨sup0 0, "write spec", false⟩]) := by
  decide

/-! ## Claim C8: not-found operations are no-ops -/

/-- Counterexample to claim C8 as stated: `delete_subtask` with the
present task id "t2" (which has no subtasks) and an absent subtask id is
not a no-op - aligning the empty filtered list against the one masked row
raises ValueError, so an exception propagates to the caller, while the
claim says none does. -/
theorem claim8_counterexample :
    (deleteSubtaskCall (Cell.strC "t2") "nope" demoState).exc =
      some PyErr.valueErr ∧
    (deleteSubtaskCall (Cell.strC "t2") "nope" demoState).saveCount =
      demoState.saveCount := by
  decide

/-- Claim C8 as amended: every listed mutation invoked with a task id
absent from the collection is a complete no-op - collection, file and
save counter unchanged, no exception. With a present task id and an
absent subtask id, `set_subtask_done` is likewise a complete no-op
(its `changed` guard skips the write), but `delete_subtask` is not: its
unconditional elementwise `.loc` assignment raises ValueError whenever
the task's subtask count differs from the masked row count - leaving
collection and file unchanged with no save, but propagating the
exception - and when the count is exactly one (a unique task with one
subtask) it writes the bare subtask dict into the cell and saves the
mangled frame. -/
theorem claim8_notfound_amended
    (st : AppState) (tid : Cell) (v : Bool) (newTask : String) (newDue : Option Int)
    (days today : Int) (text : String) (sup : Nat → String) (sid : String)
    (st2 : AppState) (tid2 : Cell) (sid2 : String) (v2 : Bool) (r0 : Row)
    (habs : hasTaskId st.rows tid = false)
    (hfind : st2.rows.find? (fun r => cellEq r.id tid2) = some r0)
    (hcount : st2.rows.countP (fun r => cellEq r.id tid2) = 1)
    (hnosub : ∀ s ∈ r0.subtasks, s.id ≠ sid2) :
    setDoneFromCheckbox tid v st = st ∧
    saveEdits tid newTask newDue st = st ∧
    snoozeTask tid days today st = st ∧
    addSubtaskCall sup tid text st = noChange st ∧
    setSubtaskDone tid sid v st = st ∧
    deleteSubtaskCall tid sid st = noChange st ∧
    setSubtaskDone tid2 sid2 v2 st2 = st2 ∧
    (r0.subtasks.length ≠ 1 →
      deleteSubtaskCall tid2 sid2 st2 =
        { noChange st2 with exc := some PyErr.valueErr }) ∧
    (r0.subtasks.length = 1 →
      (deleteSubtaskCall tid2 sid2 st2).rows = writeBare tid2 st2.rows r0.subtasks ∧
      (deleteSubtaskCall tid2 sid2 st2).saveCount = st2.saveCount + 1 ∧
      (deleteSubtaskCall tid2 sid2 st2).file =
        some (saveFileX (writeBare tid2 st2.rows r0.subtasks)) ∧
      (deleteSubtaskCall tid2 sid2 st2).exc = none) := by
  have hnone : st.rows.find? (fun r => cellEq r.id tid) = none :=
    find?_none_of_hasTaskId_false habs
  have hnosub2 : r0.subtasks.any (fun s => s.id = sid2) = false := by
    rw [List.any_eq_false]
    intro s hs
    simpa using hnosub s hs
  have hfilter : r0.subtasks.filter (fun s => !decide (s.id = sid2)) = r0.subtasks := by
    rw [List.filter_eq_self]
    intro s hs
    simpa using hnosub s hs
  refine ⟨?_, ?_, ?_, ?_, ?_, ?_, ?_, ?_, ?_⟩
  · simp [setDoneFromCheckbox, habs]
  · simp [saveEdits, habs]
  · simp [snoozeTask, hnone]
  · by_cases ht : pyStrip text = ""
    · simp [addSubtaskCall, ht]
    · simp [addSubtaskCall, ht, hnone]
  · simp [setSubtaskDone, hnone]
  · simp [deleteSubtaskCall, hnone]
  · simp [setSubtaskDone, hfind, hnosub2]
  · intro hlen
    simp [deleteSubtaskCall, hfind, hfilter, hcount, hlen]
  · intro hlen
    refine ⟨?_, ?_, ?_, ?_⟩ <;>
      simp [deleteSubtaskCall, hfind, hfilter, hcount, hlen]

theorem claim8_notfound_witness :
    setDoneFromCheckbox (Cell.strC "zz") true demoState = demoState ∧
    saveEdits (Cell.strC "zz") "T" none demoState = demoState ∧
    snoozeTask (Cell.strC "zz") 1 0 demoState = demoState ∧
    addSubtaskCall sup0 (Cell.strC "zz") "x" demoState = noChange demoState ∧
    setSubtaskDone (Cell.strC "zz") "s1" true demoState = demoState ∧
    deleteSubtaskCall (Cell.strC "zz") "s1" demoState = noChange demoState ∧
    setSubtaskDone (Cell.strC "t1") "nope" true demoState = demoState ∧
    (([⟨"s1", "milk", false⟩] : List Sub).length ≠ 1 →
      deleteSubtaskCall (Cell.strC "t1") "nope" demoState =
        { noChange demoState with exc := some PyErr.valueErr }) ∧
    (([⟨"s1", "milk", false⟩] : List Sub).length = 1 →
      (deleteSubtaskCall (Cell.strC "t1") "nope" demoState).rows =
        writeBare (Cell.strC "t1") demoState.rows [⟨"s1", "milk", false⟩] ∧
      (deleteSubtaskCall (Cell.strC "t1") "nope" demoState).saveCount =
        demoState.saveCount + 1 ∧
      (deleteSubtaskCall (Cell.strC "t1") "nope" demoState).file =
        some (saveFileX (writeBare (Cell.strC "t1") demoState.rows
          [⟨"s1", "milk", false⟩])) ∧
      (deleteSubtaskCall (Cell.strC "t1") "nope" demoState).exc = none) :=
  claim8_notfound_amended demoState (Cell.strC "zz") true "T" none 1 0 "x" sup0 "s1"
    demoState (Cell.strC "t1") "nope" true
    { id := Cell.strC "t1", task := Cell.strC "Groceries",
      subtasks := [⟨"s1", "milk", false⟩], due := Due.d 10, done := false }
    (by decide) (by decide) (by decide) (by decide)

/-! ## Claim C5: legacy migration

Positional machinery: each load stage is a column of the same length as
the record list, and `assemble` pairs them up index by index. -/

theorem readCol_is_map (col : List String) : ∃ g : String → Cell, readCol col = col.map g := by
  unfold readCol
  split_ifs <;> exact ⟨_, rfl⟩

theorem mintIds_length (sup : Nat → String) :
    ∀ (k : Nat) (cs : List Cell), ((mintIds sup k cs).1).length = cs.length
  | _, [] => rfl
  | k, c :: cs => by
    simp [mintIds, mintIds_length sup _ cs]

theorem zip3_getElem {α β γ : Type} :
    ∀ (as : List α) (bs : List β) (cs : List γ) (i : Nat) (a : α) (b : β) (c : γ),
    as[i]? = some a → bs[i]? = some b → cs[i]? = some c →
    (zip3 as bs cs)[i]? = some (a, b, c)
  | a0 :: as, b0 :: bs, c0 :: cs, 0, a, b, c, ha, hb, hc => by
    simp at ha hb hc
    simp [zip3, ha, hb, hc]
  | a0 :: as, b0 :: bs, c0 :: cs, i + 1, a, b, c, ha, hb, hc => by
    simp at ha hb hc
    simpa [zip3] using zip3_getElem as bs cs i a b c ha hb hc
  | [], _, _, i, a, b, c, ha, _, _ => by simp at ha
  | _ :: _, [], _, i, a, b, c, _, hb, _ => by simp at hb
  | _ :: _, _ :: _, [], i, a, b, c, _, _, hc => by simp at hc

theorem assemble_getElem :
    ∀ (as bs : List Cell) (cs : List (List Sub)) (ds : List Due) (es : List Bool)
    (i : Nat) (a b : Cell) (c : List Sub) (d : Due) (e : Bool),
    as[i]? = some a → bs[i]? = some b → cs[i]? = some c → ds[i]? = some d →
    es[i]? = some e →
    (assemble as bs cs ds es)[i]? = some ⟨a, b, c, d, e⟩
  | a0 :: as, b0 :: bs, c0 :: cs, d0 :: ds, e0 :: es, 0, a, b, c, d, e,
    ha, hb, hc, hd, he => by
    simp at ha hb hc hd he
    simp [assemble, ha, hb, hc, hd, he]
  | a0 :: as, b0 :: bs, c0 :: cs, d0 :: ds, e0 :: es, i + 1, a, b, c, d, e,
    ha, hb, hc, hd, he => by
    simp at ha hb hc hd he
    simpa [assemble] using assemble_getElem as bs cs ds es i a b c d e ha hb hc hd he
  | [], _, _, _, _, i, a, b, c, d, e, ha, _, _, _, _ => by simp at ha
  | _ :: _, [], _, _, _, i, a, b, c, d, e, _, hb, _, _, _ => by simp at hb
  | _ :: _, _ :: _, [], _, _, i, a, b, c, d, e, _, _, hc, _, _ => by simp at hc
  | _ :: _, _ :: _, _ :: _, [], _, i, a, b, c, d, e, _, _, _, hd, _ => by simp at hd
  | _ :: _, _ :: _, _ :: _, _ :: _, [], i, a, b, c, d, e, _, _, _, _, he => by simp at he

theorem buildSubs_getElem (sup : Nat → String) :
    ∀ (ts : List (SubsCell × Option Cell × Option Cell)) (k i : Nat)
    (c : SubsCell) (l1 l2 : Option Cell), ts[i]? = some (c, l1, l2) →
    ∃ k2, ((buildSubs sup k ts).1)[i]? = some (rowSubs sup k2 c l1 l2).1
  | [], _, i, c, l1, l2, h => by simp at h
  | (c0, l10, l20) :: ts, k, 0, c, l1, l2, h => by
    simp at h
    obtain ⟨h1, h2, h3⟩ := h
    subst h1; subst h2; subst h3
    exact ⟨k, by simp [buildSubs]⟩
  | t0 :: ts, k, i + 1, c, l1, l2, h => by
    simp at h
    obtain ⟨k2, hk⟩ :=
      buildSubs_getElem sup ts ((rowSubs sup k t0.1 t0.2.1 t0.2.2).2) i c l1 l2 h
    refine ⟨k2, ?_⟩
    have hb : buildSubs sup k (t0 :: ts) =
        ((rowSubs sup k t0.1 t0.2.1 t0.2.2).1 ::
          (buildSubs sup ((rowSubs sup k t0.1 t0.2.1 t0.2.2).2) ts).1,
         (buildSubs sup ((rowSubs sup k t0.1 t0.2.1 t0.2.2).2) ts).2) := by
      obtain ⟨c0, l10, l20⟩ := t0
      simp [buildSubs]
    rw [hb]
    simpa using hk

/-- The migrated subtasks of one legacy row, forgetting the minted ids:
texts in column order, each with `done = false`. -/
theorem legacyMigrate_texts (sup : Nat → String) :
    ∀ (k : Nat) (texts : List String),
    ((legacyMigrate sup k texts).1).map (fun s => (s.text, s.done)) =
      texts.map (fun t => (t, false))
  | _, [] => rfl
  | k, t :: ts => by
    simp [legacyMigrate, legacyMigrate_texts sup (k + 1) ts]

/-- Claim C5, general form: whenever a record's structured `Subtasks` cell
is absent (a missing value) or blank (a whitespace-only string) - in
particular whenever the `Subtasks` column is missing from the file - the
loaded row's subtasks are exactly the legacy migration of that record's
`Subtask 1`/`Subtask 2` cells: one subtask per present, non-missing,
non-blank legacy cell, its text the stripped `str()` form of the cell, its
done flag false (ids are freshly minted and not constrained here). The
witness instantiates this at the claim's concrete file: `Subtask 1` =
"Buy milk", `Subtask 2` = "" and no `Subtasks` column, yielding exactly
one subtask {text "Buy milk", done false} and no second one. -/
theorem claim5_legacy_migration (f : RawFile) (sup : Nat → String) (i : Nat)
    (rec : RawRec) (l1 l2 : Option Cell)
    (hrec : f.recs[i]? = some rec)
    (hcell : (if f.hasSubs then rec.subs else SubsCell.blank "") = SubsCell.na ∨
             ∃ b, (if f.hasSubs then rec.subs else SubsCell.blank "") = SubsCell.blank b)
    (hl1 : (l1ColF f)[i]? = some l1) (hl2 : (l2ColF f)[i]? = some l2) :
    ∃ row : Row, (loadDf f sup)[i]? = some row ∧
      row.subtasks.map (fun s => (s.text, s.done)) =
        (legacyTexts l1 l2).map (fun t => (t, false)) := by
  have hi : i < f.recs.length := by
    rcases List.getElem?_eq_some_iff.mp hrec with ⟨h, _⟩
    exact h
  have hidlen : ((idColPair f sup).1).length = f.recs.length := by
    unfold idColPair idCol0F
    rcases readCol_is_map (f.recs.map (fun r => r.id)) with ⟨g, hg⟩
    split_ifs <;> simp [hg, mintIds_length]
  have htasklen : (taskColF f).length = f.recs.length := by
    unfold taskColF
    rcases readCol_is_map (f.recs.map (fun r => r.task)) with ⟨g, hg⟩
    split_ifs <;> simp [hg]
  have hdonelen : (doneColF f).length = f.recs.length := by
    unfold doneColF
    rcases readCol_is_map (f.recs.map (fun r => r.done)) with ⟨g, hg⟩
    split_ifs <;> simp [hg]
  obtain ⟨ca, hid⟩ : ∃ a, ((idColPair f sup).1)[i]? = some a :=
    ⟨_, List.getElem?_eq_getElem (hidlen ▸ hi)⟩
  obtain ⟨cb, htask⟩ : ∃ a, (taskColF f)[i]? = some a :=
    ⟨_, List.getElem?_eq_getElem (htasklen ▸ hi)⟩
  obtain ⟨ce, hdone⟩ : ∃ a, (doneColF f)[i]? = some a :=
    ⟨_, List.getElem?_eq_getElem (hdonelen ▸ hi)⟩
  have hdue : (dueColF f)[i]? = some (match rec.due with
      | some day => Due.d day
      | none => Due.naT) := by
    unfold dueColF
    simp [hrec]
  obtain ⟨hlt, heq⟩ := List.getElem?_eq_some_iff.mp hrec
  have hsubs : (subsRawF f)[i]? = some (if f.hasSubs then rec.subs else SubsCell.blank "") := by
    unfold subsRawF
    by_cases hf : f.hasSubs <;> simp [hf, hrec, hi, heq]
  have hzip := zip3_getElem (subsRawF f) (l1ColF f) (l2ColF f) i _ _ _ hsubs hl1 hl2
  obtain ⟨k2, hcol⟩ := buildSubs_getElem sup _ (idColPair f sup).2 i _ l1 l2 hzip
  refine ⟨_, assemble_getElem _ _ _ _ _ i _ _ _ _ _ hid htask hcol hdue hdone, ?_⟩
  rcases hcell with hna | ⟨b, hb⟩
  · rw [hna]
    simp [rowSubs, legacyMigrate_texts]
  · rw [hb]
    simp [rowSubs, legacyMigrate_texts]

theorem claim5_legacy_witness :
    ∃ row : Row, (loadDf c5file sup0)[0]? = some row ∧
      row.subtasks.map (fun s => (s.text, s.done)) = [("Buy milk", false)] := by
  obtain ⟨row, hrow, htexts⟩ :=
    claim5_legacy_migration c5file sup0 0 (c5file.recs.head (by decide))
      (some (Cell.strC "Buy milk")) (some Cell.na)
      (by decide) (Or.inr ⟨"", rfl⟩) (by decide) (by decide)
  exact ⟨row, hrow, by simpa [legacyTexts, legacyVal, pyStr, pyStrip] using htexts⟩

/-! ## Claim C1: round-trip, amended form

Column-by-column lemmas: on a file produced by `save_df` from a collection
whose ids and titles are plain strings, each load stage reproduces the
corresponding column of the original collection. -/

theorem plainStrCell_spec {c : Cell} (h : plainStrCell c = true) :
    plainStr (pyStr c) = true ∧ Cell.strC (pyStr c) = c ∧ Cell.isNa c = false := by
  match c with
  | Cell.strC s => exact ⟨h, rfl, rfl⟩
  | Cell.na => simp [plainStrCell] at h
  | Cell.boolC b => simp [plainStrCell] at h
  | Cell.intC n => simp [plainStrCell] at h
  | Cell.floatC l => simp [plainStrCell] at h

theorem readCol_plain {col : List String} (h : ∀ s ∈ col, plainStr s = true) :
    readCol col = col.map Cell.strC := by
  match col with
  | [] => rfl
  | hd :: tl =>
    have hhd := h hd (by simp)
    simp only [plainStr, Bool.and_eq_true, Bool.not_eq_true'] at hhd
    have c1 : (hd :: tl).all (fun s => isNAtext s || isBoolLit s) = false := by
      simp [List.all_cons, hhd.1.1.1, hhd.1.1.2]
    have c2 : (hd :: tl).all (fun s => isNAtext s || isIntLit s) = false := by
      simp [List.all_cons, hhd.1.1.1, hhd.1.2]
    have c3 : (hd :: tl).all (fun s => isNAtext s || isNumLit s) = false := by
      simp [List.all_cons, hhd.1.1.1, hhd.2]
    unfold readCol
    rw [c1, c2, c3]
    simp only [Bool.false_eq_true, if_false]
    apply List.map_congr_left
    intro s hs
    have hp := h s hs
    simp only [plainStr, Bool.and_eq_true, Bool.not_eq_true'] at hp
    simp [hp.1.1.1]

theorem idCol0_roundtrip (rows : List Row)
    (hid : ∀ r ∈ rows, plainStrCell r.id = true) :
    idCol0F (saveFile rows) = rows.map (fun r => r.id) := by
  have h0 : idCol0F (saveFile rows) = readCol ((rows.map saveRec).map (fun r => r.id)) := rfl
  have hcol : (rows.map saveRec).map (fun r => r.id) = rows.map (fun r => pyStr r.id) := by
    rw [List.map_map]
    rfl
  have hplain : ∀ s ∈ rows.map (fun r => pyStr r.id), plainStr s = true := by
    intro s hs
    rcases List.mem_map.mp hs with ⟨r, hr, rfl⟩
    exact (plainStrCell_spec (hid r hr)).1
  rw [h0, hcol, readCol_plain hplain, List.map_map]
  exact List.map_congr_left (fun r hr => (plainStrCell_spec (hid r hr)).2.1)

theorem idColPair_roundtrip (rows : List Row) (sup : Nat → String)
    (hid : ∀ r ∈ rows, plainStrCell r.id = true) :
    idColPair (saveFile rows) sup = (rows.map (fun r => r.id), 0) := by
  have hany : (rows.map (fun r => r.id)).any Cell.isNa = false := by
    rw [List.any_eq_false]
    intro c hc
    rcases List.mem_map.mp hc with ⟨r, hr, rfl⟩
    simp [(plainStrCell_spec (hid r hr)).2.2]
  unfold idColPair
  rw [idCol0_roundtrip rows hid, hany]
  simp

theorem taskCol_roundtrip (rows : List Row)
    (htask : ∀ r ∈ rows, plainStrCell r.task = true) :
    taskColF (saveFile rows) = rows.map (fun r => r.task) := by
  have h0 : taskColF (saveFile rows) = readCol ((rows.map saveRec).map (fun r => r.task)) := rfl
  have hcol : (rows.map saveRec).map (fun r => r.task) = rows.map (fun r => pyStr r.task) := by
    rw [List.map_map]
    rfl
  have hplain : ∀ s ∈ rows.map (fun r => pyStr r.task), plainStr s = true := by
    intro s hs
    rcases List.mem_map.mp hs with ⟨r, hr, rfl⟩
    exact (plainStrCell_spec (htask r hr)).1
  rw [h0, hcol, readCol_plain hplain, List.map_map]
  exact List.map_congr_left (fun r hr => (plainStrCell_spec (htask r hr)).2.1)

theorem doneCol_roundtrip (rows : List Row) :
    doneColF (saveFile rows) = rows.map (fun r => r.done) := by
  have h0 : doneColF (saveFile rows) =
      (readCol ((rows.map saveRec).map (fun r => r.done))).map Cell.truthy := rfl
  have hcol : (rows.map saveRec).map (fun r => r.done) =
      rows.map (fun r => if r.done then "True" else "False") := by
    rw [List.map_map]
    rfl
  have hall : (rows.map (fun r => if r.done then "True" else "False")).all
      (fun s => isNAtext s || isBoolLit s) = true := by
    rw [List.all_eq_true]
    intro s hs
    rcases List.mem_map.mp hs with ⟨r, hr, rfl⟩
    by_cases hd : r.done <;> simp [hd] <;> decide
  rw [h0, hcol]
  unfold readCol
  rw [hall]
  simp only [if_true, List.map_map]
  apply List.map_congr_left
  intro r _
  by_cases hd : r.done <;> simp [hd, Function.comp] <;> decide

theorem dueCol_roundtrip (rows : List Row) :
    dueColF (saveFile rows) = rows.map (fun r => normDue r.due) := by
  have h0 : dueColF (saveFile rows) = (rows.map saveRec).map (fun rec =>
      match rec.due with
      | some day => Due.d day
      | none => Due.naT) := rfl
  rw [h0, List.map_map]
  apply List.map_congr_left
  intro r _
  obtain ⟨id0, task0, subs0, due0, done0⟩ := r
  cases due0 <;> rfl

theorem subsRaw_roundtrip (rows : List Row) :
    subsRawF (saveFile rows) = rows.map (fun r =>
      SubsCell.jlist ((cleanSubs r.subtasks).map
        (fun s => JEntry.dict (some s.id) (some s.text) (some s.done)))) := by
  have h0 : subsRawF (saveFile rows) = (rows.map saveRec).map (fun rec => rec.subs) := rfl
  rw [h0, List.map_map]
  rfl

theorem l1Col_roundtrip (rows : List Row) :
    l1ColF (saveFile rows) = List.replicate rows.length none := by
  have h0 : l1ColF (saveFile rows) =
      List.replicate ((rows.map saveRec).length) none := rfl
  rw [h0, List.length_map]

theorem l2Col_roundtrip (rows : List Row) :
    l2ColF (saveFile rows) = List.replicate rows.length none := by
  have h0 : l2ColF (saveFile rows) =
      List.replicate ((rows.map saveRec).length) none := rfl
  rw [h0, List.length_map]

theorem zip3_map_repl {α β γ δ : Type} (g : δ → α) (b : β) (c : γ) :
    ∀ rows : List δ,
    zip3 (rows.map g) (List.replicate rows.length b) (List.replicate rows.length c)
      = rows.map (fun r => (g r, b, c))
  | [] => rfl
  | r :: rows => by
    simp [zip3, List.replicate_succ, zip3_map_repl g b c rows]

/-- A saved entry of a cleaned subtask list parses back to itself: the id
is non-empty so no fresh id is minted, the text passed the blank filter,
and the done flag is the written boolean. -/
theorem parseEntries_clean (sup : Nat → String) :
    ∀ (l : List Sub) (k : Nat),
    (∀ s ∈ l, s.id ≠ "" ∧ (s.text ≠ "" && pyStrip s.text ≠ "") = true) →
    parseEntries sup k (l.map (fun s => JEntry.dict (some s.id) (some s.text) (some s.done)))
      = (l, k)
  | [], _, _ => rfl
  | s :: l, k, h => by
    obtain ⟨hsid, hstext⟩ := h s (by simp)
    have ih := parseEntries_clean sup l k (fun x hx => h x (by simp [hx]))
    have ht : ¬s.text = "" ∧ ¬pyStrip s.text = "" := by simpa using hstext
    simp [parseEntries, parseEntry, hsid, ht.1, ht.2, ih]

theorem rowSubs_clean (sup : Nat → String) (k : Nat) (r : Row)
    (hr : ∀ s ∈ r.subtasks, s.id ≠ "") :
    rowSubs sup k (SubsCell.jlist ((cleanSubs r.subtasks).map
      (fun s => JEntry.dict (some s.id) (some s.text) (some s.done)))) none none
      = (cleanSubs r.subtasks, k) := by
  unfold rowSubs
  apply parseEntries_clean
  intro s hs
  have hmem : s ∈ r.subtasks.filter (fun s => s.text ≠ "" && pyStrip s.text ≠ "") := hs
  exact ⟨hr s (List.mem_filter.mp hmem).1, (List.mem_filter.mp hmem).2⟩

theorem buildSubs_clean (sup : Nat → String) :
    ∀ (rows : List Row) (k : Nat),
    (∀ r ∈ rows, ∀ s ∈ r.subtasks, s.id ≠ "") →
    buildSubs sup k (rows.map (fun r =>
      (SubsCell.jlist ((cleanSubs r.subtasks).map
        (fun s => JEntry.dict (some s.id) (some s.text) (some s.done))), none, none)))
      = (rows.map (fun r => cleanSubs r.subtasks), k)
  | [], _, _ => rfl
  | r :: rows, k, h => by
    have hr := rowSubs_clean sup k r (h r (by simp))
    have ih := buildSubs_clean sup rows k (fun x hx s hs => h x (by simp [hx]) s hs)
    simp [buildSubs, hr, ih]

theorem assemble_map (rows : List Row) (f1 f2 : Row → Cell) (f3 : Row → List Sub)
    (f4 : Row → Due) (f5 : Row → Bool) :
    assemble (rows.map f1) (rows.map f2) (rows.map f3) (rows.map f4) (rows.map f5)
      = rows.map (fun r => ⟨f1 r, f2 r, f3 r, f4 r, f5 r⟩) := by
  induction rows with
  | nil => rfl
  | cons r rows ih => simp [assemble, ih]

/-- Claim C1 as amended: for every collection whose task id and title
cells are plain strings (non-empty, not NA sentinels, not boolean or
numeric literals - `plainStrCell`) and whose subtask ids are non-empty,
loading the saved file reproduces the collection after the claim's
normalization: ids, titles and done flags intact, subtasks in order with
ids, texts and done flags intact, blank-text subtasks removed, due dates
preserved to day precision and the two absent-due-date states both
loading as the absent (`NaT`) state. The counterexample shows the plain
proviso is necessary. -/
theorem claim1_roundtrip_amended (rows : List Row) (sup : Nat → String)
    (hid : ∀ r ∈ rows, plainStrCell r.id = true)
    (htask : ∀ r ∈ rows, plainStrCell r.task = true)
    (hsub : ∀ r ∈ rows, ∀ s ∈ r.subtasks, s.id ≠ "") :
    loadDf (saveFile rows) sup = rows.map specNormalizeRow := by
  unfold loadDf
  rw [idColPair_roundtrip rows sup hid, taskCol_roundtrip rows htask,
      dueCol_roundtrip rows, doneCol_roundtrip rows, subsRaw_roundtrip rows,
      l1Col_roundtrip rows, l2Col_roundtrip rows, zip3_map_repl,
      buildSubs_clean sup rows 0 hsub, assemble_map]
  exact List.map_congr_left (fun r _ => rfl)

theorem claim1_roundtrip_witness :
    loadDf (saveFile rtRows) sup0 = rtRows.map specNormalizeRow :=
  claim1_roundtrip_amended rtRows sup0 (by decide) (by decide) (by decide)

end VibeCheck
